import Mathlib

/-!
Shallow embedding of `src/COMPLETE_WEBHOOK_FUNCTION.ts`, the WhatsApp
webhook handler of the self-service-qr repository.

The handler is a single `serve` callback.  We embed its pure data flow:
JavaScript values that may be `null`/`undefined` become `Option`s, and the
JavaScript `||` / truthiness semantics used by the state merge (lines
239-246 of the source) are modelled exactly: `a || b` returns `a` when `a`
is truthy (non-null, not `false`, not `0`, not the empty string) and `b`
otherwise.  Database effects (the supabase queries and updates) become
explicit list transformations, and the outbound network calls (the Twilio
send and the appointment-service fetch) become data recorded in the
handler's result.
-/

/-- Timestamps and the 2-hour window are in milliseconds, as in
`Date.now()`. -/
abbrev Millis := Int

/-- JavaScript truthiness of a possibly-null string: `null`/`undefined`
and `""` are falsy. -/
def truthyS : Option String → Bool
  | none => false
  | some s => !(s == "")

/-- JavaScript truthiness of a possibly-null boolean: only `true` is
truthy. -/
def truthyB : Option Bool → Bool
  | some true => true
  | _ => false

/-- JavaScript truthiness of a possibly-null number: `null`/`undefined`
and `0` are falsy. -/
def truthyN : Option Int → Bool
  | none => false
  | some n => !(n == 0)

/-- The collected-symptoms payload is an opaque JSON object; any object is
truthy in JavaScript. -/
structure Symptoms where
  entries : List (String × String)
deriving DecidableEq, Repr

/-- JavaScript truthiness of a possibly-null object. -/
def truthyObj : Option Symptoms → Bool
  | none => false
  | some _ => true

/-- JavaScript `a || b` on string-valued fields. -/
def orS (a b : Option String) : Option String :=
  if truthyS a then a else b

/-- JavaScript `a || b` on boolean-valued fields. -/
def orB (a b : Option Bool) : Option Bool :=
  if truthyB a then a else b

/-- JavaScript `a || b` on number-valued fields. -/
def orN (a b : Option Int) : Option Int :=
  if truthyN a then a else b

/-- JavaScript `a || b` on object-valued fields. -/
def orObj (a b : Option Symptoms) : Option Symptoms :=
  if truthyObj a then a else b

/-- JavaScript `a || d` where `d` is a non-null string default, as in
`patientName || 'WhatsApp Patient'` (source line 286). -/
def orDefaultS (a : Option String) (d : String) : String :=
  match a with
  | some s => if s == "" then d else s
  | none => d

/-- Whether `pat` is an initial segment of `l`. -/
def startsWithL : List Char → List Char → Bool
  | [], _ => true
  | _ :: _, [] => false
  | p :: ps, c :: cs => p == c && startsWithL ps cs

/-- Remove the first occurrence of `pat` from a character list;
the semantics of JavaScript `String.replace(pat, '')` with a string
pattern, which replaces only the first occurrence. -/
def removeOnceL (pat : List Char) : List Char → List Char
  | [] => []
  | c :: cs =>
    if startsWithL pat (c :: cs) then (c :: cs).drop pat.length
    else c :: removeOnceL pat cs

/-- JavaScript `s.replace(pat, '')`: removes the first occurrence only. -/
def jsRemoveFirst (pat : String) (s : String) : String :=
  String.mk (removeOnceL pat.toList s.toList)

/-- Source lines 71-72: `x.replace('whatsapp:', '').replace('+', '')`. -/
def normalizePhone (s : String) : String :=
  jsRemoveFirst "+" (jsRemoveFirst "whatsapp:" s)

/-- One row of the `hospitals` table (the columns the handler reads). -/
structure Hospital where
  id : Nat
  name : String
  whatsapp_enabled : Bool
  whatsapp_number : String
  organization_type : String
deriving DecidableEq, Repr

/-- One turn of a conversation transcript (source lines 175-180 and
232-236). -/
structure Turn where
  role : String
  content : String
  timestamp : Millis
  messageSid : Option String
deriving DecidableEq, Repr

/-- One row of the `whatsapp_conversations` table.  Clinical fields are
independently nullable.  `id` and `created_at` are assigned by the
database at insert. -/
structure Session where
  id : Nat
  hospital_id : Nat
  patient_phone : String
  conversation_state : Option String
  collected_symptoms : Option Symptoms
  triage_level : Option String
  urgency_score : Option Int
  first_aid_given : Option Bool
  patient_name : Option String
  appointment_created : Bool
  transcript : Option (List Turn)
  last_message_at : Millis
  created_at : Millis
deriving DecidableEq, Repr

/-- The JSON body returned by the AI conversation function (the fields the
webhook reads, source lines 213 and 239-246, 264). -/
structure AiResult where
  response : String
  newState : Option String
  symptoms : Option Symptoms
  triageLevel : Option String
  patientName : Option String
  urgencyScore : Option Int
  firstAid : Option Bool
  createAppointment : Option Bool
  preferredDate : Option String
  preferredTime : Option String
deriving DecidableEq, Repr

/-- The merged field set computed at source lines 239-246: each `const` is
`aiResult.field || fallback` with JavaScript `||` semantics. -/
structure Merged where
  newState : Option String
  collectedSymptoms : Option Symptoms
  triageLevel : Option String
  patientName : Option String
  urgencyScore : Option Int
  firstAidGiven : Option Bool
  preferredDate : Option String
  preferredTime : Option String
deriving DecidableEq, Repr

/-- Source lines 239-246: the state-merge engine.  `preferredDate` and
`preferredTime` fall back to `null`, not to a session field. -/
def mergeState (conversation : Session) (aiResult : AiResult) : Merged :=
  { newState := orS aiResult.newState conversation.conversation_state
    collectedSymptoms := orObj aiResult.symptoms conversation.collected_symptoms
    triageLevel := orS aiResult.triageLevel conversation.triage_level
    patientName := orS aiResult.patientName conversation.patient_name
    urgencyScore := orN aiResult.urgencyScore conversation.urgency_score
    firstAidGiven := orB aiResult.firstAid conversation.first_aid_given
    preferredDate := orS aiResult.preferredDate none
    preferredTime := orS aiResult.preferredTime none }

/-- Source lines 262-271: the appointment-trigger gate.
`!conversation.appointment_created && (aiResult.createAppointment === true
|| (collectedSymptoms && triageLevel && triageLevel !== 'CRITICAL'))`,
where `collectedSymptoms` and `triageLevel` are the merged values. -/
def shouldCreateAppointment (conversation : Session) (aiResult : AiResult) : Bool :=
  let m := mergeState conversation aiResult
  !conversation.appointment_created &&
    (aiResult.createAppointment == some true ||
      (truthyObj m.collectedSymptoms && truthyS m.triageLevel &&
        !(m.triageLevel == some "CRITICAL")))

/-- The tenant-resolution query, source lines 82-87: among rows with
`whatsapp_enabled = true`, match `whatsapp_number` against the bare or the
'+'-prefixed normalized recipient number; the database row order stands in
for the table order.  The `.single()` call's error when several rows match
is not modelled: we assume at most one stored row matches a number, which
is the schema's intent. -/
def findHospital (hospitals : List Hospital) (num : String) : Option Hospital :=
  hospitals.find? fun h =>
    (h.whatsapp_number == num || h.whatsapp_number == "+" ++ num) &&
      h.whatsapp_enabled

/-- The fallback query, source lines 95-100: the first row with
`organization_type = 'hospital'`.  Note the query has no
`whatsapp_enabled` filter. -/
def fallbackHospital (hospitals : List Hospital) : Option Hospital :=
  hospitals.find? fun h => h.organization_type == "hospital"

/-- Source lines 82-107: resolve the tenant, falling back when the
number-match query returns nothing. -/
def resolveHospital (hospitals : List Hospital) (num : String) : Option Hospital :=
  match findHospital hospitals num with
  | some h => some h
  | none => fallbackHospital hospitals

/-- The 2-hour session-liveness window in milliseconds (source line 134). -/
def twoHoursMs : Millis := 2 * 60 * 60 * 1000

/-- SQL `conversation_state <> 'completed'`: a NULL state does not satisfy
the predicate (SQL three-valued comparison). -/
def stateNeqCompleted : Option String → Bool
  | none => false
  | some st => !(st == "completed")

/-- The row filter of the active-session query, source lines 136-145:
same hospital and phone, state not 'completed', `last_message_at` at least
`now - 2h`. -/
def isActiveMatch (hospitalId : Nat) (phone : String) (now : Millis)
    (s : Session) : Bool :=
  s.hospital_id == hospitalId && s.patient_phone == phone &&
    stateNeqCompleted s.conversation_state &&
    decide (now - twoHoursMs ≤ s.last_message_at)

/-- Keep the row with the larger `created_at` (the `order
created_at desc, limit 1` of the query); on a tie the earlier row in table
order is kept. -/
def pickLatest : Option Session → Session → Option Session
  | none, s => some s
  | some t, s => if t.created_at < s.created_at then some s else some t

/-- The active-session query, source lines 136-145: the matching row with
the greatest `created_at`, if any. -/
def findExisting (db : List Session) (hospitalId : Nat) (phone : String)
    (now : Millis) : Option Session :=
  (db.filter (isActiveMatch hospitalId phone now)).foldl pickLatest none

/-- The insert at source lines 152-161: a fresh session in state
'greeting' with an empty transcript and all clinical fields unset.  The
database assigns the row id and the timestamps at insert time. -/
def newSession (hospitalId : Nat) (phone : String) (now : Millis)
    (freshId : Nat) : Session :=
  { id := freshId
    hospital_id := hospitalId
    patient_phone := phone
    conversation_state := some "greeting"
    collected_symptoms := none
    triage_level := none
    urgency_score := none
    first_aid_given := none
    patient_name := none
    appointment_created := false
    transcript := some []
    last_message_at := now
    created_at := now }

/-- Source lines 130-170: find the active session or create a fresh one;
returns the resolved session together with the conversations table after
the step. -/
def findOrCreateSession (db : List Session) (hospitalId : Nat)
    (phone : String) (now : Millis) (freshId : Nat) :
    Session × List Session :=
  match findExisting db hospitalId phone now with
  | some s => (s, db)
  | none =>
    let s := newSession hospitalId phone now freshId
    (s, db ++ [s])

/-- Source lines 173-181: the inbound patient turn appended to the
transcript (`conversation.transcript || []` coalesces a NULL transcript). -/
def updatedTranscript (conversation : Session) (body : String)
    (now : Millis) (messageSid : String) : List Turn :=
  conversation.transcript.getD [] ++
    [{ role := "patient", content := body, timestamp := now,
       messageSid := some messageSid }]

/-- Source lines 230-237: the outbound assistant turn appended after the
AI call. -/
def finalTranscript (ut : List Turn) (response : String) (now : Millis) :
    List Turn :=
  ut ++ [{ role := "assistant", content := response, timestamp := now,
           messageSid := none }]

/-- `update(...).eq('id', cid)`: apply `f` to every row whose id is
`cid`. -/
def updateById (db : List Session) (cid : Nat) (f : Session → Session) :
    List Session :=
  db.map fun s => if s.id == cid then f s else s

/-- The update at source lines 184-190: writes `transcript` and
`last_message_at` only. -/
def applyFirstUpdate (ut : List Turn) (now : Millis) (s : Session) :
    Session :=
  { s with transcript := some ut, last_message_at := now }

/-- The update at source lines 248-259: writes exactly `transcript`,
`conversation_state`, `collected_symptoms`, `triage_level`,
`urgency_score`, `first_aid_given` and `patient_name`. -/
def applyFinalUpdate (ft : List Turn) (m : Merged) (s : Session) :
    Session :=
  { s with transcript := some ft
           conversation_state := m.newState
           collected_symptoms := m.collectedSymptoms
           triage_level := m.triageLevel
           urgency_score := m.urgencyScore
           first_aid_given := m.firstAidGiven
           patient_name := m.patientName }

/-- Process environment configuration read at source lines 12-13; the
credentials are absent or possibly empty strings. -/
structure Config where
  twilioAccountSid : Option String
  twilioAuthToken : Option String
deriving DecidableEq, Repr

/-- An outbound Twilio message (source lines 355-369). -/
structure TwilioSend where
  fromAddr : String
  toAddr : String
  body : String
deriving DecidableEq, Repr

/-- Source lines 346-374, `sendWhatsAppMessageViaTwilio`: when either
credential is falsy the send is skipped and `null` is returned; otherwise
a request to the Twilio API is issued. -/
def sendWhatsAppMessageViaTwilio (cfg : Config) (fromNum toNum body : String) :
    Option TwilioSend :=
  if !truthyS cfg.twilioAccountSid || !truthyS cfg.twilioAuthToken then none
  else some { fromAddr := "whatsapp:+" ++ fromNum,
              toAddr := "whatsapp:+" ++ toNum, body := body }

/-- The JSON body of the appointment-service request, source lines
282-294. -/
structure AppointmentRequest where
  conversationId : Nat
  hospitalId : Nat
  patientPhone : String
  patientName : String
  symptoms : Option Symptoms
  triageLevel : Option String
  urgencyScore : Option Int
  firstAidGiven : Option Bool
  preferredDate : Option String
  preferredTime : Option String
  transcript : List Turn
deriving DecidableEq, Repr

/-- Source lines 282-294: the appointment-service payload built from the
merged fields (`patientName || 'WhatsApp Patient'` at line 286). -/
def mkAppointmentRequest (conversation : Session) (hospitalId : Nat)
    (patientPhone : String) (m : Merged) (ft : List Turn) :
    AppointmentRequest :=
  { conversationId := conversation.id
    hospitalId := hospitalId
    patientPhone := patientPhone
    patientName := orDefaultS m.patientName "WhatsApp Patient"
    symptoms := m.collectedSymptoms
    triageLevel := m.triageLevel
    urgencyScore := m.urgencyScore
    firstAidGiven := m.firstAidGiven
    preferredDate := m.preferredDate
    preferredTime := m.preferredTime
    transcript := ft }

/-- The normalized inbound message after the source-detection block
(source lines 35-66). -/
structure IncomingMsg where
  fromAddr : String
  toAddr : String
  body : String
  messageSid : String
  isBaileysBot : Bool
deriving DecidableEq, Repr

/-- The HTTP response returned to the transport (source lines 113-127 and
298-316). -/
inductive HttpResponse where
  | jsonNotConfigured : HttpResponse
  | twimlNotConfigured : HttpResponse
  | jsonSuccess (response : String) (conversationId : Nat)
      (conversationState : Option String) : HttpResponse
  | twimlEmpty : HttpResponse
deriving DecidableEq, Repr

/-- The database rows the handler can read. -/
structure Db where
  hospitals : List Hospital
  conversations : List Session
deriving DecidableEq, Repr

/-- Everything observable a successful handler run produces: the HTTP
response, the conversations table afterwards, and the outbound calls it
issued. -/
structure HandlerResult where
  response : HttpResponse
  conversations : List Session
  twilioSend : Option TwilioSend
  appointmentRequest : Option AppointmentRequest
deriving DecidableEq, Repr

/-- The body of `serve` (source lines 68-316) on the success path: the AI
service's JSON reply is an input (the call is external), `now` is the
request's clock reading and `freshId` the row id the database would assign
to a newly inserted session. -/
def handleMessage (cfg : Config) (db : Db) (msg : IncomingMsg)
    (aiResult : AiResult) (now : Millis) (freshId : Nat) : HandlerResult :=
  let patientPhone := normalizePhone msg.fromAddr
  let hospitalWhatsApp := normalizePhone msg.toAddr
  match resolveHospital db.hospitals hospitalWhatsApp with
  | none =>
    { response :=
        if msg.isBaileysBot then .jsonNotConfigured else .twimlNotConfigured
      conversations := db.conversations
      twilioSend := none
      appointmentRequest := none }
  | some hospital =>
    let fc := findOrCreateSession db.conversations hospital.id patientPhone
      now freshId
    let conversation := fc.1
    let ut := updatedTranscript conversation msg.body now msg.messageSid
    let db1 := updateById fc.2 conversation.id (applyFirstUpdate ut now)
    let send :=
      if msg.isBaileysBot then none
      else sendWhatsAppMessageViaTwilio cfg hospitalWhatsApp patientPhone
        aiResult.response
    let ft := finalTranscript ut aiResult.response now
    let m := mergeState conversation aiResult
    let db2 := updateById db1 conversation.id (applyFinalUpdate ft m)
    let appt :=
      if shouldCreateAppointment conversation aiResult then
        some (mkAppointmentRequest conversation hospital.id patientPhone m ft)
      else none
    { response :=
        if msg.isBaileysBot then
          .jsonSuccess aiResult.response conversation.id m.newState
        else .twimlEmpty
      conversations := db2
      twilioSend := send
      appointmentRequest := appt }

/-! ### Concrete instances used by the merge and trigger claims -/

/-- A stored session whose `first_aid_given` is `true`. -/
def convC1 : Session :=
  { id := 1, hospital_id := 1, patient_phone := "15551234567"
    conversation_state := some "triage", collected_symptoms := none
    triage_level := none, urgency_score := some 5
    first_aid_given := some true, patient_name := none
    appointment_created := false, transcript := some []
    last_message_at := 0, created_at := 0 }

/-- An AI update that explicitly sets `firstAid: false` and
`urgencyScore: 0` — both present (non-null, defined) but falsy. -/
def aiC1 : AiResult :=
  { response := "ok", newState := none, symptoms := none
    triageLevel := none, patientName := none, urgencyScore := some 0
    firstAid := some false, createAppointment := none
    preferredDate := none, preferredTime := none }

/-- C1 counterexample: the external update carries the present (non-null,
defined) value `firstAid = false`, yet the merge keeps the prior session
value `true`; likewise the present `urgencyScore = 0` loses to the stored
`5`.  A present value does not always win: the merge uses JavaScript `||`,
so present-but-falsy values fall back. -/
theorem c1_present_falsy_value_loses :
    aiC1.firstAid.isSome = true ∧
    (mergeState convC1 aiC1).firstAidGiven ≠ aiC1.firstAid ∧
    (mergeState convC1 aiC1).firstAidGiven = convC1.first_aid_given ∧
    aiC1.urgencyScore.isSome = true ∧
    (mergeState convC1 aiC1).urgencyScore ≠ aiC1.urgencyScore := by
  decide

/-- C1 amended: for each of the six merged fields, the external update's
value wins exactly when it is truthy in the JavaScript sense (present and
not `false`, `0` or `""`); otherwise — absent or present-but-falsy — the
prior session value is kept.  In particular an absent value is never
coerced to null or empty. -/
theorem c1_merge_truthy_wins_else_preserves
    (conversation : Session) (aiResult : AiResult) :
    (mergeState conversation aiResult).newState =
      (if truthyS aiResult.newState then aiResult.newState
       else conversation.conversation_state) ∧
    (mergeState conversation aiResult).collectedSymptoms =
      (if truthyObj aiResult.symptoms then aiResult.symptoms
       else conversation.collected_symptoms) ∧
    (mergeState conversation aiResult).triageLevel =
      (if truthyS aiResult.triageLevel then aiResult.triageLevel
       else conversation.triage_level) ∧
    (mergeState conversation aiResult).urgencyScore =
      (if truthyN aiResult.urgencyScore then aiResult.urgencyScore
       else conversation.urgency_score) ∧
    (mergeState conversation aiResult).firstAidGiven =
      (if truthyB aiResult.firstAid then aiResult.firstAid
       else conversation.first_aid_given) ∧
    (mergeState conversation aiResult).patientName =
      (if truthyS aiResult.patientName then aiResult.patientName
       else conversation.patient_name) := by
  exact ⟨rfl, rfl, rfl, rfl, rfl, rfl⟩

/-- A stored session with no appointment created yet. -/
def convC2 : Session :=
  { id := 2, hospital_id := 1, patient_phone := "15551234567"
    conversation_state := some "triage", collected_symptoms := none
    triage_level := none, urgency_score := none
    first_aid_given := none, patient_name := none
    appointment_created := false, transcript := some []
    last_message_at := 0, created_at := 0 }

/-- An AI update with CRITICAL triage, symptoms present, and the explicit
`createAppointment: true` flag. -/
def aiC2 : AiResult :=
  { response := "ok", newState := none
    symptoms := some ⟨[("pain", "chest")]⟩
    triageLevel := some "CRITICAL", patientName := none
    urgencyScore := none, firstAid := none
    createAppointment := some true
    preferredDate := none, preferredTime := none }

/-- C2 counterexample: the merged triage level is the highest-severity
tier, symptoms are present, and yet the appointment trigger fires, because
the external service's `createAppointment === true` branch bypasses the
CRITICAL guard. -/
theorem c2_critical_fires_on_explicit_flag :
    (mergeState convC2 aiC2).triageLevel = some "CRITICAL" ∧
    truthyObj (mergeState convC2 aiC2).collectedSymptoms = true ∧
    shouldCreateAppointment convC2 aiC2 = true := by
  decide

/-- C2 amended: when the merged triage level is CRITICAL, the
symptom-based branch of the gate never fires; the trigger fires exactly
when no appointment was created before and the external service explicitly
set `createAppointment === true`. -/
theorem c2_critical_only_explicit_flag
    (conversation : Session) (aiResult : AiResult)
    (h : (mergeState conversation aiResult).triageLevel = some "CRITICAL") :
    shouldCreateAppointment conversation aiResult =
      (!conversation.appointment_created &&
        (aiResult.createAppointment == some true)) := by
  simp only [shouldCreateAppointment, h]
  simp

/-- Witness for `c2_critical_only_explicit_flag` at a concrete input: a
CRITICAL update without the explicit flag does not fire. -/
def aiC2w : AiResult :=
  { response := "ok", newState := none
    symptoms := some ⟨[("pain", "chest")]⟩
    triageLevel := some "CRITICAL", patientName := none
    urgencyScore := none, firstAid := none, createAppointment := none
    preferredDate := none, preferredTime := none }

/-- C2 witness: the amended theorem applied at a concrete CRITICAL update
with no explicit flag; the gate evaluates to `false`. -/
theorem c2_critical_only_explicit_flag_holds :
    shouldCreateAppointment convC2 aiC2w =
      (!convC2.appointment_created &&
        (aiC2w.createAppointment == some true)) :=
  c2_critical_only_explicit_flag convC2 aiC2w (by decide)

/-- C5: the transcript is strictly append-only.  The inbound append
produces the prior transcript (a NULL transcript coalesced to `[]`) with
exactly one new turn at the end, and the outbound append does the same to
its result: every earlier turn is preserved unmodified in order, and each
append grows the length by exactly one (two per successful request). -/
theorem c5_transcript_append_only (conversation : Session) (body : String)
    (now : Millis) (messageSid : String) (response : String)
    (now2 : Millis) :
    (updatedTranscript conversation body now messageSid).length =
      (conversation.transcript.getD []).length + 1 ∧
    (updatedTranscript conversation body now messageSid).take
        (conversation.transcript.getD []).length =
      conversation.transcript.getD [] ∧
    (finalTranscript (updatedTranscript conversation body now messageSid)
        response now2).length =
      (updatedTranscript conversation body now messageSid).length + 1 ∧
    (finalTranscript (updatedTranscript conversation body now messageSid)
        response now2).take
        (updatedTranscript conversation body now messageSid).length =
      updatedTranscript conversation body now messageSid ∧
    (finalTranscript (updatedTranscript conversation body now messageSid)
        response now2).length =
      (conversation.transcript.getD []).length + 2 := by
  refine ⟨?_, ?_, ?_, ?_, ?_⟩
  · simp [updatedTranscript]
  · simp [updatedTranscript]
  · simp [finalTranscript]
  · simp [finalTranscript]
  · simp [updatedTranscript, finalTranscript]

/-- Changing only the AI update's preferred date and time leaves the
persisted conversations, the HTTP response and the Twilio send of a
handler run unchanged. -/
theorem handleMessage_preferred_irrelevant
    (cfg : Config) (db : Db) (msg : IncomingMsg) (aiResult : AiResult)
    (now : Millis) (freshId : Nat) (pd pt : Option String) :
    (handleMessage cfg db msg
        { aiResult with preferredDate := pd, preferredTime := pt }
        now freshId).conversations =
      (handleMessage cfg db msg aiResult now freshId).conversations ∧
    (handleMessage cfg db msg
        { aiResult with preferredDate := pd, preferredTime := pt }
        now freshId).response =
      (handleMessage cfg db msg aiResult now freshId).response ∧
    (handleMessage cfg db msg
        { aiResult with preferredDate := pd, preferredTime := pt }
        now freshId).twilioSend =
      (handleMessage cfg db msg aiResult now freshId).twilioSend := by
  cases hres : resolveHospital db.hospitals (normalizePhone msg.toAddr) with
  | none => simp [handleMessage, hres]
  | some hospital =>
    simp [handleMessage, hres, mergeState, shouldCreateAppointment,
      applyFinalUpdate, updateById, findOrCreateSession, updatedTranscript,
      finalTranscript, sendWhatsAppMessageViaTwilio]

/-- C8: `preferredDate`/`preferredTime` are transient.  The post-merge
session update writes exactly `transcript`, `conversation_state`,
`collected_symptoms`, `triage_level`, `urgency_score`, `first_aid_given`
and `patient_name`, leaving every other session column unchanged; and
changing the AI update's `preferredDate`/`preferredTime` alone changes
neither the persisted conversations nor the HTTP response nor the
outbound Twilio send — the values reach only the appointment request,
where the payload carries the `|| null`-coalesced transient values. -/
theorem c8_preferred_transient_update_frame
    (ft : List Turn) (m : Merged) (s : Session)
    (cfg : Config) (db : Db) (msg : IncomingMsg) (aiResult : AiResult)
    (now : Millis) (freshId : Nat) (pd pt : Option String) :
    (applyFinalUpdate ft m s).id = s.id ∧
    (applyFinalUpdate ft m s).hospital_id = s.hospital_id ∧
    (applyFinalUpdate ft m s).patient_phone = s.patient_phone ∧
    (applyFinalUpdate ft m s).appointment_created = s.appointment_created ∧
    (applyFinalUpdate ft m s).last_message_at = s.last_message_at ∧
    (applyFinalUpdate ft m s).created_at = s.created_at ∧
    (applyFinalUpdate ft m s).transcript = some ft ∧
    (applyFinalUpdate ft m s).conversation_state = m.newState ∧
    (applyFinalUpdate ft m s).collected_symptoms = m.collectedSymptoms ∧
    (applyFinalUpdate ft m s).triage_level = m.triageLevel ∧
    (applyFinalUpdate ft m s).urgency_score = m.urgencyScore ∧
    (applyFinalUpdate ft m s).first_aid_given = m.firstAidGiven ∧
    (applyFinalUpdate ft m s).patient_name = m.patientName ∧
    (handleMessage cfg db msg
        { aiResult with preferredDate := pd, preferredTime := pt }
        now freshId).conversations =
      (handleMessage cfg db msg aiResult now freshId).conversations ∧
    (handleMessage cfg db msg
        { aiResult with preferredDate := pd, preferredTime := pt }
        now freshId).response =
      (handleMessage cfg db msg aiResult now freshId).response ∧
    (handleMessage cfg db msg
        { aiResult with preferredDate := pd, preferredTime := pt }
        now freshId).twilioSend =
      (handleMessage cfg db msg aiResult now freshId).twilioSend ∧
    (mergeState s { aiResult with preferredDate := pd, preferredTime := pt }).preferredDate = orS pd none ∧
    (mergeState s { aiResult with preferredDate := pd, preferredTime := pt }).preferredTime = orS pt none := by
  exact ⟨rfl, rfl, rfl, rfl, rfl, rfl, rfl, rfl, rfl, rfl, rfl, rfl, rfl,
    (handleMessage_preferred_irrelevant cfg db msg aiResult now freshId
      pd pt).1,
    (handleMessage_preferred_irrelevant cfg db msg aiResult now freshId
      pd pt).2.1,
    (handleMessage_preferred_irrelevant cfg db msg aiResult now freshId
      pd pt).2.2,
    rfl, rfl⟩

/-- A per-id update reaches row `i` through `Option.map`. -/
theorem updateById_getElem (l : List Session) (cid : Nat)
    (f : Session → Session) (i : Nat) :
    (updateById l cid f)[i]? =
      (l[i]?).map fun s => if s.id == cid then f s else s := by
  rw [updateById, List.getElem?_map]

/-- A per-id update whose row function preserves `appointment_created`
preserves it at every position. -/
theorem appointment_created_updateById (l : List Session) (cid : Nat)
    (f : Session → Session)
    (hf : ∀ s, (f s).appointment_created = s.appointment_created)
    (i : Nat) :
    ((updateById l cid f)[i]?).map Session.appointment_created =
      (l[i]?).map Session.appointment_created := by
  rw [updateById_getElem]
  cases l[i]? with
  | none => rfl
  | some s =>
    simp only [Option.map_some']
    split <;> simp [hf]

/-- Neither of the handler's two per-id session updates touches
`appointment_created`. -/
theorem appointment_created_two_updates (l : List Session) (cid : Nat)
    (ut : List Turn) (now : Millis) (ft : List Turn) (m : Merged)
    (i : Nat) :
    ((updateById (updateById l cid (applyFirstUpdate ut now)) cid
        (applyFinalUpdate ft m))[i]?).map Session.appointment_created =
      (l[i]?).map Session.appointment_created := by
  rw [appointment_created_updateById _ _ (applyFinalUpdate ft m)
      fun s => rfl,
    appointment_created_updateById _ _ (applyFirstUpdate ut now)
      fun s => rfl]

/-- C4: no write of the handler ever touches `appointment_created`.  Rows
already in the table keep their flag bit-for-bit (so the flag never goes
true to false), and any row the handler adds is created with the flag
`false`; this holds whether or not the appointment trigger fires. -/
theorem c4_appointment_flag_never_written
    (cfg : Config) (db : Db) (msg : IncomingMsg) (aiResult : AiResult)
    (now : Millis) (freshId : Nat) (i : Nat) :
    (i < db.conversations.length →
      (((handleMessage cfg db msg aiResult now freshId).conversations[i]?).map
          Session.appointment_created =
        (db.conversations[i]?).map Session.appointment_created)) ∧
    (db.conversations.length ≤ i →
      ∀ s,
        (handleMessage cfg db msg aiResult now freshId).conversations[i]? =
          some s →
        s.appointment_created = false) := by
  cases hres : resolveHospital db.hospitals (normalizePhone msg.toAddr) with
  | none =>
    refine ⟨fun _ => by simp [handleMessage, hres], fun hle s hs => ?_⟩
    simp only [handleMessage, hres] at hs
    rw [List.getElem?_eq_none hle] at hs
    cases hs
  | some hospital =>
    cases hfe : findExisting db.conversations hospital.id
        (normalizePhone msg.fromAddr) now with
    | some s0 =>
      constructor
      · intro _hi
        simp only [handleMessage, hres, findOrCreateSession, hfe]
        rw [appointment_created_two_updates]
      · intro hle s hs
        simp only [handleMessage, hres, findOrCreateSession, hfe] at hs
        rw [updateById_getElem, updateById_getElem,
          List.getElem?_eq_none hle] at hs
        simp at hs
    | none =>
      constructor
      · intro hi
        simp only [handleMessage, hres, findOrCreateSession, hfe]
        rw [appointment_created_two_updates, List.getElem?_append_left hi]
      · intro hle s hs
        simp only [handleMessage, hres, findOrCreateSession, hfe] at hs
        rw [updateById_getElem, updateById_getElem] at hs
        rcases Nat.eq_or_lt_of_le hle with heq | hlt
        · rw [← heq, List.getElem?_concat_length] at hs
          simp at hs
          subst hs
          simp [newSession, applyFirstUpdate, applyFinalUpdate]
        · rw [List.getElem?_eq_none (by simpa using hlt)] at hs
          simp at hs

/-- The enabled hospital used by the concrete C4 witness. -/
def hospC4 : Hospital :=
  { id := 1, name := "General", whatsapp_enabled := true
    whatsapp_number := "15559876543", organization_type := "hospital" }

/-- A stored session whose appointment flag is already `true`. -/
def convC4 : Session :=
  { id := 7, hospital_id := 1
    patient_phone := "15551234567", conversation_state := some "triage"
    collected_symptoms := none, triage_level := none
    urgency_score := none, first_aid_given := none, patient_name := none
    appointment_created := true, transcript := some []
    last_message_at := 1000, created_at := 1000 }

/-- A one-hospital, one-session database for the C4 witness. -/
def dbC4 : Db :=
  { hospitals := [hospC4], conversations := [convC4] }

/-- The inbound message used by the concrete witnesses. -/
def msgC4 : IncomingMsg :=
  { fromAddr := "whatsapp:+15551234567", toAddr := "whatsapp:+15559876543"
    body := "I have a fever", messageSid := "SM1", isBaileysBot := true }

/-- The AI reply used by the concrete witnesses. -/
def aiC4 : AiResult :=
  { response := "Noted", newState := some "triage"
    symptoms := some ⟨[("fever", "high")]⟩, triageLevel := some "MODERATE"
    patientName := none, urgencyScore := none, firstAid := none
    createAppointment := none, preferredDate := none, preferredTime := none }

/-- C4 witness: the theorem applied at the concrete input; the stored
row's `true` flag survives the run. -/
theorem c4_appointment_flag_never_written_holds :
    ((handleMessage { twilioAccountSid := none, twilioAuthToken := none }
        dbC4 msgC4 aiC4 2000 8).conversations[0]?).map
      Session.appointment_created =
    (dbC4.conversations[0]?).map Session.appointment_created :=
  (c4_appointment_flag_never_written
    { twilioAccountSid := none, twilioAuthToken := none }
    dbC4 msgC4 aiC4 2000 8 0).1 (by decide)

/-- C7: when no tenant resolves — no number match and no fallback row —
the handler returns the channel-appropriate "not configured" reply and
stops: the conversations table is untouched, no Twilio send happens and
no appointment request is issued. -/
theorem c7_no_tenant_short_circuit
    (cfg : Config) (db : Db) (msg : IncomingMsg) (aiResult : AiResult)
    (now : Millis) (freshId : Nat)
    (h : resolveHospital db.hospitals (normalizePhone msg.toAddr) = none) :
    handleMessage cfg db msg aiResult now freshId =
      { response :=
          if msg.isBaileysBot then .jsonNotConfigured
          else .twimlNotConfigured
        conversations := db.conversations
        twilioSend := none
        appointmentRequest := none } := by
  simp only [handleMessage, h]

/-- The empty-hospital database used by the C7 witness. -/
def dbC7 : Db := { hospitals := [], conversations := [] }

/-- The inbound Twilio-format message used by the C7 witness. -/
def msgC7 : IncomingMsg :=
  { fromAddr := "whatsapp:+15551234567", toAddr := "whatsapp:+15559876543"
    body := "hello", messageSid := "SM2", isBaileysBot := false }

/-- The AI reply used by the C7 witness (never consulted on this path). -/
def aiC7 : AiResult :=
  { response := "x", newState := none, symptoms := none
    triageLevel := none, patientName := none, urgencyScore := none
    firstAid := none, createAppointment := none
    preferredDate := none, preferredTime := none }

/-- C7 witness: with an empty hospitals table the theorem applies; the
Twilio channel gets the TwiML "not configured" reply and no session is
created. -/
theorem c7_no_tenant_short_circuit_holds :
    handleMessage { twilioAccountSid := none, twilioAuthToken := none }
        dbC7 msgC7 aiC7 0 1 =
      { response := .twimlNotConfigured
        conversations := []
        twilioSend := none
        appointmentRequest := none } :=
  c7_no_tenant_short_circuit
    { twilioAccountSid := none, twilioAuthToken := none }
    dbC7 msgC7 aiC7 0 1 (by decide)

/-- C9: with the Twilio credentials unset (or empty), the send helper
returns `null` without raising, and a Twilio-channel request still runs to
completion exactly as it would with credentials: same persisted
conversations and same appointment decision, with the empty TwiML
acknowledgment returned and no outbound Twilio call recorded. -/
theorem c9_missing_credentials_skip_send
    (cfg cfg2 : Config) (db : Db) (msg : IncomingMsg) (aiResult : AiResult)
    (now : Millis) (freshId : Nat) (hospital : Hospital)
    (hcred : truthyS cfg.twilioAccountSid = false ∨
      truthyS cfg.twilioAuthToken = false)
    (hch : msg.isBaileysBot = false)
    (hres : resolveHospital db.hospitals (normalizePhone msg.toAddr) =
      some hospital) :
    (∀ fromNum toNum body,
      sendWhatsAppMessageViaTwilio cfg fromNum toNum body = none) ∧
    (handleMessage cfg db msg aiResult now freshId).twilioSend = none ∧
    (handleMessage cfg db msg aiResult now freshId).response =
      .twimlEmpty ∧
    (handleMessage cfg db msg aiResult now freshId).conversations =
      (handleMessage cfg2 db msg aiResult now freshId).conversations ∧
    (handleMessage cfg db msg aiResult now freshId).appointmentRequest =
      (handleMessage cfg2 db msg aiResult now freshId).appointmentRequest := by
  have hsend : ∀ fromNum toNum body,
      sendWhatsAppMessageViaTwilio cfg fromNum toNum body = none := by
    intro fromNum toNum body
    rcases hcred with hc | hc <;> simp [sendWhatsAppMessageViaTwilio, hc]
  refine ⟨hsend, ?_, ?_, ?_, ?_⟩ <;>
    simp [handleMessage, hres, hch, hsend]

/-- The enabled hospital used by the C9 witness; its stored number keeps
the plus sign, exercising the second arm of the number match. -/
def hospC9 : Hospital :=
  { id := 3, name := "General", whatsapp_enabled := true
    whatsapp_number := "+15559876543", organization_type := "hospital" }

/-- The one-hospital database used by the C9 witness. -/
def dbC9 : Db := { hospitals := [hospC9], conversations := [] }

/-- The inbound Twilio-format message used by the C9 witness. -/
def msgC9 : IncomingMsg :=
  { fromAddr := "whatsapp:+15551234567", toAddr := "whatsapp:+15559876543"
    body := "I feel dizzy", messageSid := "SM3", isBaileysBot := false }

/-- The AI reply used by the C9 witness. -/
def aiC9 : AiResult :=
  { response := "Please rest", newState := some "collecting"
    symptoms := none, triageLevel := none, patientName := none
    urgencyScore := none, firstAid := none, createAppointment := none
    preferredDate := none, preferredTime := none }

/-- C9 witness: the theorem applied with empty-string credentials on a
resolving Twilio request; the send is skipped and the run matches a run
with full credentials. -/
theorem c9_missing_credentials_skip_send_holds :
    (∀ fromNum toNum body,
      sendWhatsAppMessageViaTwilio
        { twilioAccountSid := some "", twilioAuthToken := some "tok" }
        fromNum toNum body = none) ∧
    (handleMessage { twilioAccountSid := some "", twilioAuthToken := some "tok" }
        dbC9 msgC9 aiC9 50 4).twilioSend = none ∧
    (handleMessage { twilioAccountSid := some "", twilioAuthToken := some "tok" }
        dbC9 msgC9 aiC9 50 4).response = .twimlEmpty ∧
    (handleMessage { twilioAccountSid := some "", twilioAuthToken := some "tok" }
        dbC9 msgC9 aiC9 50 4).conversations =
      (handleMessage { twilioAccountSid := some "sid", twilioAuthToken := some "tok" }
        dbC9 msgC9 aiC9 50 4).conversations ∧
    (handleMessage { twilioAccountSid := some "", twilioAuthToken := some "tok" }
        dbC9 msgC9 aiC9 50 4).appointmentRequest =
      (handleMessage { twilioAccountSid := some "sid", twilioAuthToken := some "tok" }
        dbC9 msgC9 aiC9 50 4).appointmentRequest :=
  c9_missing_credentials_skip_send
    { twilioAccountSid := some "", twilioAuthToken := some "tok" }
    { twilioAccountSid := some "sid", twilioAuthToken := some "tok" }
    dbC9 msgC9 aiC9 50 4
    (dbC9.hospitals.get ⟨0, by decide⟩)
    (Or.inl (by decide)) (by decide) (by decide)

/-- `pickLatest` never yields `none`. -/
theorem pickLatest_isSome (acc : Option Session) (s : Session) :
    (pickLatest acc s).isSome = true := by
  cases acc with
  | none => rfl
  | some t =>
    simp only [pickLatest]
    split <;> rfl

/-- Folding `pickLatest` yields `none` only from an empty list and an
empty accumulator. -/
theorem foldl_pickLatest_eq_none (l : List Session) (acc : Option Session)
    (h : l.foldl pickLatest acc = none) : acc = none ∧ l = [] := by
  induction l generalizing acc with
  | nil => exact ⟨h, rfl⟩
  | cons a l ih =>
    rcases ih (pickLatest acc a) h with ⟨h1, _⟩
    have := pickLatest_isSome acc a
    rw [h1] at this
    cases this

/-- The session picked by the fold is the accumulator or a list element. -/
theorem foldl_pickLatest_mem (l : List Session) (acc : Option Session)
    (s : Session) (h : l.foldl pickLatest acc = some s) :
    acc = some s ∨ s ∈ l := by
  induction l generalizing acc with
  | nil => exact Or.inl h
  | cons a l ih =>
    rcases ih (pickLatest acc a) h with h1 | h1
    · cases acc with
      | none =>
        simp only [pickLatest] at h1
        cases h1
        exact Or.inr (by simp)
      | some t =>
        simp only [pickLatest] at h1
        revert h1
        split <;> intro h1 <;> cases h1
        · exact Or.inr (by simp)
        · exact Or.inl rfl
    · exact Or.inr (List.mem_cons_of_mem a h1)

/-- The session picked by the fold has a `created_at` at least that of
the accumulator and of every list element. -/
theorem foldl_pickLatest_max (l : List Session) (acc : Option Session)
    (s : Session) (h : l.foldl pickLatest acc = some s) :
    (∀ t, acc = some t → t.created_at ≤ s.created_at) ∧
      ∀ t ∈ l, t.created_at ≤ s.created_at := by
  induction l generalizing acc with
  | nil =>
    refine ⟨fun t ht => ?_, fun t ht => absurd ht (List.not_mem_nil t)⟩
    rw [ht] at h
    cases h
    exact le_refl _
  | cons a l ih =>
    rcases ih (pickLatest acc a) h with ⟨h1, h2⟩
    have ha : a.created_at ≤ s.created_at := by
      cases acc with
      | none => exact h1 a rfl
      | some t =>
        simp only [pickLatest] at h1
        by_cases hlt : t.created_at < a.created_at
        · exact h1 a (by rw [if_pos hlt])
        · have := h1 t (by rw [if_neg hlt])
          exact le_trans (le_of_not_lt hlt) this
    constructor
    · intro t ht
      by_cases hlt : t.created_at < a.created_at
      · exact le_trans (le_of_lt hlt) ha
      · refine h1 t ?_
        rw [ht]
        simp only [pickLatest]
        rw [if_neg hlt]
    · intro t ht
      rcases List.mem_cons.mp ht with rfl | ht
      · exact ha
      · exact h2 t ht

/-- A session returned by the active-session query is a stored row that
passes the query's filter, and no stored row passing the filter was
created later. -/
theorem findExisting_spec (db : List Session) (hospitalId : Nat)
    (phone : String) (now : Millis) (s : Session)
    (h : findExisting db hospitalId phone now = some s) :
    s ∈ db ∧ isActiveMatch hospitalId phone now s = true ∧
      ∀ t ∈ db, isActiveMatch hospitalId phone now t = true →
        t.created_at ≤ s.created_at := by
  unfold findExisting at h
  rcases foldl_pickLatest_mem _ _ _ h with h1 | h1
  · cases h1
  · have hm := List.mem_filter.mp h1
    refine ⟨hm.1, hm.2, fun t ht hat => ?_⟩
    exact (foldl_pickLatest_max _ _ _ h).2 t
      (List.mem_filter.mpr ⟨ht, hat⟩)

/-- When the active-session query returns nothing, no stored row passes
its filter. -/
theorem findExisting_none (db : List Session) (hospitalId : Nat)
    (phone : String) (now : Millis)
    (h : findExisting db hospitalId phone now = none) :
    ∀ t ∈ db, isActiveMatch hospitalId phone now t = false := by
  unfold findExisting at h
  have hnil := (foldl_pickLatest_eq_none _ _ h).2
  intro t ht
  by_contra hc
  have : t ∈ db.filter (isActiveMatch hospitalId phone now) :=
    List.mem_filter.mpr ⟨ht, by revert hc; cases isActiveMatch hospitalId phone now t <;> simp⟩
  rw [hnil] at this
  cases this

/-- C3: session resolution returns the most recently created stored
session that is not completed and whose `last_message_at` lies within the
2-hour window, when one exists, leaving the table unchanged (a second
message inside the window reuses that session's id); when no stored
session qualifies — in particular when every candidate sits outside the
window — a fresh session with a brand-new id is created and appended. -/
theorem c3_session_resolution (db : List Session) (hospitalId : Nat)
    (phone : String) (now : Millis) (freshId : Nat)
    (hfresh : ∀ s ∈ db, s.id ≠ freshId) :
    (∀ s, findExisting db hospitalId phone now = some s →
      (findOrCreateSession db hospitalId phone now freshId = (s, db) ∧
        s ∈ db ∧ isActiveMatch hospitalId phone now s = true ∧
        ∀ t ∈ db, isActiveMatch hospitalId phone now t = true →
          t.created_at ≤ s.created_at)) ∧
    (findExisting db hospitalId phone now = none →
      ((∀ t ∈ db, isActiveMatch hospitalId phone now t = false) ∧
        (findOrCreateSession db hospitalId phone now freshId).1.id =
          freshId ∧
        (∀ s ∈ db,
          s.id ≠ (findOrCreateSession db hospitalId phone now freshId).1.id) ∧
        (findOrCreateSession db hospitalId phone now freshId).2 =
          db ++ [(findOrCreateSession db hospitalId phone now freshId).1])) := by
  constructor
  · intro s hs
    have hspec := findExisting_spec db hospitalId phone now s hs
    exact ⟨by simp [findOrCreateSession, hs], hspec.1, hspec.2.1, hspec.2.2⟩
  · intro hnone
    refine ⟨findExisting_none db hospitalId phone now hnone, ?_, ?_, ?_⟩
    · simp [findOrCreateSession, hnone, newSession]
    · intro s hsmem
      simp only [findOrCreateSession, hnone]
      exact hfresh s hsmem
    · simp [findOrCreateSession, hnone]

/-- The active stored session used by the C3 witness. -/
def convC3 : Session :=
  { id := 11, hospital_id := 1
    patient_phone := "15551234567", conversation_state := some "collecting"
    collected_symptoms := none, triage_level := none
    urgency_score := none, first_aid_given := none, patient_name := none
    appointment_created := false, transcript := some []
    last_message_at := 1000, created_at := 900 }

/-- C3 witness: the theorem applied at a concrete one-session table whose
row is inside the window; resolution returns that row unchanged. -/
theorem c3_session_resolution_holds :
    findOrCreateSession [convC3] 1 "15551234567" 2000 42 =
      (convC3, [convC3]) :=
  (((c3_session_resolution [convC3] 1 "15551234567" 2000 42
    (by decide)).1 convC3 (by decide))).1

/-- C10: whenever the appointment trigger fires with no patient name in
the AI update and none stored in any session, the dispatched appointment
request carries the literal placeholder name `"WhatsApp Patient"`, never
a null or empty name. -/
theorem c10_missing_name_placeholder
    (cfg : Config) (db : Db) (msg : IncomingMsg) (aiResult : AiResult)
    (now : Millis) (freshId : Nat)
    (hname : aiResult.patientName = none)
    (hdb : ∀ s ∈ db.conversations, s.patient_name = none) :
    ∀ r, (handleMessage cfg db msg aiResult now freshId).appointmentRequest =
        some r →
      r.patientName = "WhatsApp Patient" := by
  intro r hr
  cases hres : resolveHospital db.hospitals (normalizePhone msg.toAddr) with
  | none => simp [handleMessage, hres] at hr
  | some hospital =>
    cases hfe : findExisting db.conversations hospital.id
        (normalizePhone msg.fromAddr) now with
    | some s0 =>
      have hpn : s0.patient_name = none :=
        hdb s0 (findExisting_spec _ _ _ _ _ hfe).1
      simp only [handleMessage, hres, findOrCreateSession, hfe] at hr
      revert hr
      split <;> intro hr <;> cases hr
      simp [mkAppointmentRequest, mergeState, orS, truthyS, hname, hpn,
        orDefaultS]
    | none =>
      simp only [handleMessage, hres, findOrCreateSession, hfe] at hr
      revert hr
      split <;> intro hr <;> cases hr
      simp [mkAppointmentRequest, mergeState, orS, truthyS, hname,
        newSession, orDefaultS]

/-- The enabled hospital used by the C10 witness. -/
def hospC10 : Hospital :=
  { id := 4, name := "General", whatsapp_enabled := true
    whatsapp_number := "15559876543", organization_type := "hospital" }

/-- The empty-conversations database used by the C10 witness. -/
def dbC10 : Db := { hospitals := [hospC10], conversations := [] }

/-- The inbound message used by the C10 witness. -/
def msgC10 : IncomingMsg :=
  { fromAddr := "whatsapp:+15551234567", toAddr := "whatsapp:+15559876543"
    body := "I need help", messageSid := "SM4", isBaileysBot := true }

/-- An AI reply with no patient name that explicitly requests an
appointment. -/
def aiC10 : AiResult :=
  { response := "Booking now", newState := none, symptoms := none
    triageLevel := none, patientName := none, urgencyScore := none
    firstAid := none, createAppointment := some true
    preferredDate := none, preferredTime := none }

/-- C10 witness: the trigger fires on the concrete input and the
dispatched request names the patient `"WhatsApp Patient"`. -/
theorem c10_missing_name_placeholder_holds :
    ((handleMessage { twilioAccountSid := none, twilioAuthToken := none }
        dbC10 msgC10 aiC10 0 5).appointmentRequest).map
      AppointmentRequest.patientName = some "WhatsApp Patient" := by
  have h := c10_missing_name_placeholder
    { twilioAccountSid := none, twilioAuthToken := none }
    dbC10 msgC10 aiC10 0 5 (by decide) (by simp [dbC10])
  cases hq : (handleMessage { twilioAccountSid := none, twilioAuthToken := none }
      dbC10 msgC10 aiC10 0 5).appointmentRequest with
  | none => exact absurd hq (by decide)
  | some r => simp [h r hq]

/-- A hospital row of the default organization type whose WhatsApp
channel is disabled. -/
def hospC6 : Hospital :=
  { id := 9, name := "Disabled Clinic", whatsapp_enabled := false
    whatsapp_number := "999", organization_type := "hospital" }

/-- C6: the number-match lookup honours the enabled flag and both address
forms, but the fallback query does not: with a single stored hospital of
the default organization type whose WhatsApp channel is disabled, and a
recipient number matching nothing, resolution still returns that disabled
hospital.  This contradicts both the claim ("first enabled tenant") and
the source's own comment "get the first hospital with whatsapp enabled"
(line 94): the fallback query at lines 95-100 never filters on
`whatsapp_enabled`. -/
theorem c6_fallback_ignores_enabled_flag :
    findHospital [hospC6] "555" = none ∧
    resolveHospital [hospC6] "555" = some hospC6 ∧
    hospC6.whatsapp_enabled = false := by
  decide
